import Mathlib

/-!
Verification of the real-time messaging and notification subsystem of the
Wema community-aid platform (server/models/Chat.js, server/models/User.js,
server/sockets/chatHandler.js, server/sockets/notificationHandler.js).

The JavaScript code is shallowly embedded: mongoose documents become Lean
structures, document methods and socket handlers become pure functions from
the fetched state (plus the payload) to the persisted state together with
the list of emitted socket events.  Timestamps (`new Date()`) are passed in
explicitly as `Nat` clock values.  Mongoose `ObjectId` values and user ids
are strings.  One `save()` of a fetched chat document is modelled as one
atomic replacement of the chat state, which is the per-document atomicity
the storage layer provides; a sequence of handler invocations against the
same chat is therefore modelled as the store commit order.
-/

namespace Wema

/-- Update the first element of a list satisfying `p` (the semantics of a
JavaScript `Array.prototype.find` followed by an in-place mutation of the
found element, and of `mongoose.DocumentArray.id` lookups). -/
def updateFirst {α : Type} (p : α → Bool) (f : α → α) : List α → List α
  | [] => []
  | a :: l => if p a then f a :: l else a :: updateFirst p f l

/-- Remove the first element of a list satisfying `p` (the semantics of
`DocumentArray.pull(subdoc)`, which removes the one subdocument whose `_id`
matches the pulled document). -/
def removeFirst {α : Type} (p : α → Bool) : List α → List α
  | [] => []
  | a :: l => if p a then l else a :: removeFirst p l

/-- JavaScript string truthiness for an optional field: present and
non-empty.  Mongoose `required` on a string path uses the same test. -/
def strTruthy : Option String → Bool
  | some s => !s.isEmpty
  | none => false

/-- Read receipt subdocument: `readBy` entries of `messageSchema`
(Chat.js lines 51-60). -/
structure ReadReceipt where
  user : String
  readAt : Nat
deriving Repr, DecidableEq

/-- Reaction subdocument: `reactions` entries of `messageSchema`
(Chat.js lines 75-85). -/
structure Reaction where
  user : String
  emoji : String
  addedAt : Nat
deriving Repr, DecidableEq

/-- Voice note attachment (Chat.js lines 21-25). -/
structure VoiceNote where
  url : String
  publicId : String
  duration : Nat
deriving Repr, DecidableEq

/-- Image attachment (Chat.js lines 26-30). -/
structure ImageAttachment where
  url : String
  publicId : String
  caption : String
deriving Repr, DecidableEq

/-- GeoJSON-style location object.  `coordinates` is optional so that the
JavaScript truthiness test `location && location.coordinates` in the alert
handlers can be expressed: an object may be present without the field. -/
structure GeoLoc where
  coordinates : Option (List Int)
  address : Option String
deriving Repr, DecidableEq

/-- Message subdocument of a chat (`messageSchema`, Chat.js lines 3-100).
The `status`, `language` and `translations` paths play no role in any
verified operation and are omitted; `id` is the subdocument `_id`. -/
structure Message where
  id : String
  sender : String
  content : Option String
  messageType : String
  voiceNote : Option VoiceNote
  image : Option ImageAttachment
  location : Option GeoLoc
  sharedResource : Option String
  readBy : List ReadReceipt
  reactions : List Reaction
  replyTo : Option String
  isEdited : Bool
  editedAt : Option Nat
  originalContent : Option String
deriving Repr, DecidableEq

/-- Chat participant entry (Chat.js lines 108-138); the notification and
accessibility toggles are omitted as no verified operation reads them. -/
structure Participant where
  user : String
  role : String
  joinedAt : Nat
  lastSeen : Nat
deriving Repr, DecidableEq

/-- Denormalized last-message summary (Chat.js lines 194-202). -/
structure LastMessageInfo where
  content : String
  sender : String
  sentAt : Nat
  messageType : String
deriving Repr, DecidableEq

/-- Per-participant unread counter entry (Chat.js lines 204-213). -/
structure UnreadCount where
  user : String
  count : Nat
deriving Repr, DecidableEq

/-- Chat document (`chatSchema`, Chat.js lines 102-227), restricted to the
paths touched by the messaging operations; group metadata, settings and
archive state are omitted. -/
structure Chat where
  chatType : String
  participants : List Participant
  messages : List Message
  lastMessage : Option LastMessageInfo
  unreadCounts : List UnreadCount
deriving Repr, DecidableEq

/-- User document fields consumed by the socket handlers
(User.js: `role`, `isVerified`, `isOnline`, `lastActive`,
`preferredLanguage`, plus the push-notification preference). -/
structure User where
  id : String
  username : String
  role : String
  isVerified : Bool
  isOnline : Bool
  lastActive : Nat
  preferredLanguage : String
  pushEnabled : Bool
deriving Repr, DecidableEq

/-- Message payload assembled by the `send_message` handler
(chatHandler.js lines 109-120) before `chat.addMessage` is called. -/
structure MessageData where
  sender : String
  content : Option String
  messageType : String
  voiceNote : Option VoiceNote
  image : Option ImageAttachment
  location : Option GeoLoc
  replyTo : Option String
deriving Repr, DecidableEq

/-- Allowed values of the `messageType` enum (Chat.js line 18). -/
def messageTypeValues : List String :=
  ["text", "voice", "image", "location", "resource_share"]

/-- Mongoose validation run by `save()` on a new message subdocument:
`content` is required (non-empty) unless a voice note or an image is
present (Chat.js lines 9-15), `content` is capped at 1000 characters, and
`messageType` must belong to its enum. -/
def validMessageData (md : MessageData) : Bool :=
  (strTruthy md.content || md.voiceNote.isSome || md.image.isSome)
    && (match md.content with
        | some s => decide (s.length ≤ 1000)
        | none => true)
    && messageTypeValues.contains md.messageType

/-- Fresh message subdocument created by `this.messages.create(messageData)`
inside `addMessage`: schema defaults fill the remaining paths. -/
def mkMessage (newId : String) (md : MessageData) : Message :=
  { id := newId
    sender := md.sender
    content := md.content
    messageType := md.messageType
    voiceNote := md.voiceNote
    image := md.image
    location := md.location
    sharedResource := none
    readBy := []
    reactions := []
    replyTo := md.replyTo
    isEdited := false
    editedAt := none
    originalContent := none }

/-- The `chatSchema.methods.addMessage` method (Chat.js lines 242-262):
push the new message, refresh the last-message summary (falling back to
"<type> message" when `content` is falsy, as `messageData.content || ...`
does), bump every other participant's unread counter, then `save()`.  The
`save` validates the new subdocument, so an invalid message persists
nothing; validation failure surfaces as the thrown error the caller
catches. -/
def Chat.addMessage (c : Chat) (md : MessageData) (newId : String) (now : Nat) :
    Except String Chat :=
  if validMessageData md then
    Except.ok
      { c with
        messages := c.messages ++ [mkMessage newId md]
        lastMessage := some
          { content :=
              match md.content with
              | some s => if s.isEmpty then md.messageType ++ " message" else s
              | none => md.messageType ++ " message"
            sender := md.sender
            sentAt := now
            messageType := md.messageType }
        unreadCounts := c.unreadCounts.map fun uc =>
          if uc.user ≠ md.sender then { uc with count := uc.count + 1 } else uc }
  else
    Except.error "ValidationError"

/-- Socket-level presence events observed by `chatHandler`: a connection
opening for an authenticated identity (chatHandler.js lines 28-43) or a
connection closing (lines 376-393).  The connection id is ghost state used
to express the multi-device property; the handlers never consult it. -/
inductive PresenceEvent where
  | connect (connId : String) (userId : String) (time : Nat)
  | disconnect (connId : String) (userId : String) (time : Nat)
deriving Repr, DecidableEq

/-- Broadcast emitted by the presence transitions (`socket.broadcast.emit`
of `user_online` and `user_offline`). -/
inductive PresenceOut where
  | userOnline (userId : String)
  | userOffline (userId : String) (lastActive : Nat)
deriving Repr, DecidableEq

/-- Presence world state: the persisted user documents, plus the ghost set
of currently open connections as (connection id, user id) pairs. -/
structure PresenceState where
  users : List User
  live : List (String × String)
deriving Repr, DecidableEq

/-- One presence transition, straight from the source: on connect the
handler sets `socket.user.isOnline = true` and saves; on disconnect it
unconditionally sets `isOnline = false` and `lastActive = now` and saves.
Neither path counts the other live connections of the identity.  The ghost
`live` list is maintained alongside. -/
def stepPresence (s : PresenceState) : PresenceEvent → PresenceState × List PresenceOut
  | .connect cid uid _t =>
    ({ users := updateFirst (fun u => u.id == uid)
          (fun u => { u with isOnline := true }) s.users
       live := s.live ++ [(cid, uid)] },
     [.userOnline uid])
  | .disconnect cid uid t =>
    ({ users := updateFirst (fun u => u.id == uid)
          (fun u => { u with isOnline := false, lastActive := t }) s.users
       live := s.live.filter (fun cu => cu.1 != cid) },
     [.userOffline uid t])

/-- Run a trace of presence events. -/
def runPresence (s : PresenceState) : List PresenceEvent → PresenceState
  | [] => s
  | e :: es => runPresence (stepPresence s e).1 es

/-- Online flag of an identity as persisted in the user directory. -/
def PresenceState.isOnlineOf (s : PresenceState) (uid : String) : Option Bool :=
  (s.users.find? (fun u => u.id == uid)).map User.isOnline

/-- Persisted last-active stamp of an identity. -/
def PresenceState.lastActiveOf (s : PresenceState) (uid : String) : Option Nat :=
  (s.users.find? (fun u => u.id == uid)).map User.lastActive

/-- Number of currently open connections registered for an identity. -/
def PresenceState.liveConnCount (s : PresenceState) (uid : String) : Nat :=
  (s.live.filter (fun cu => cu.2 == uid)).length

/-- One `send_message` ledger append request: the message data together
with the fresh subdocument id and the commit clock value. -/
structure AppendReq where
  data : MessageData
  newId : String
  now : Nat
deriving Repr

/-- Run a list of appends against a chat in store commit order, recording
for each successful append the sequence position its message received (its
index in the `messages` array).  A failed append changes nothing and
assigns no position. -/
def runSendsPos (c : Chat) : List AppendReq → Chat × List Nat
  | [] => (c, [])
  | r :: rest =>
    match c.addMessage r.data r.newId r.now with
    | Except.ok c2 =>
      let res := runSendsPos c2 rest
      (res.1, c.messages.length :: res.2)
    | Except.error _ => runSendsPos c rest

/-- JavaScript indexing `coords[i]` rendered into a template string:
a missing element prints as "undefined". -/
def jsIndexStr (l : List Int) (i : Nat) : String :=
  match l.get? i with
  | some v => toString v
  | none => "undefined"

/-- Location room name used by the alert handlers
(notificationHandler.js lines 17, 89, 376). -/
def locationRoom (coords : List Int) : String :=
  "location:" ++ jsIndexStr coords 0 ++ "-" ++ jsIndexStr coords 1

/-- Payload of `send_emergency_alert` (notificationHandler.js line 64);
the `urgency` destructuring default applies only when the field is
absent. -/
structure EmergencyPayload where
  title : String
  message : String
  location : Option GeoLoc
  urgency : Option String
  category : Option String
deriving Repr, DecidableEq

/-- Emissions of the `send_emergency_alert` handler: an `error` event back
to the caller, an `emergency_alert` publish to one room, or the
`critical_emergency_alert` broadcast to every connection. -/
inductive EmergencyOut where
  | errorEvent (msg : String)
  | alertToRoom (room : String)
  | criticalToAll
deriving Repr, DecidableEq

/-- The `send_emergency_alert` handler (notificationHandler.js lines
62-106).  Authorization requires admin role or the verified flag; an
authorized alert is published to the location room when the payload has a
location with a `coordinates` field, to the category room when `category`
is truthy, and to every connection when the effective urgency is
critical. -/
def sendEmergencyAlertHandler (u : User) (p : EmergencyPayload) :
    List EmergencyOut :=
  if u.role ≠ "admin" ∧ u.isVerified = false then
    [.errorEvent "Not authorized to send emergency alerts"]
  else
    let urgency := p.urgency.getD "high"
    let locEmits : List EmergencyOut :=
      match p.location with
      | some loc =>
        match loc.coordinates with
        | some cs => [.alertToRoom (locationRoom cs)]
        | none => []
      | none => []
    let catEmits : List EmergencyOut :=
      if strTruthy p.category then
        [.alertToRoom ("resource_alerts:" ++ p.category.getD "")]
      else []
    let critEmits : List EmergencyOut :=
      if urgency = "critical" then [.criticalToAll] else []
    locEmits ++ catEmits ++ critEmits

/-- Payload of `ai_need_prediction` (notificationHandler.js line 356):
the nested `prediction.category` plus an optional location. -/
structure PredictionPayload where
  predictionCategory : String
  location : Option GeoLoc
deriving Repr, DecidableEq

/-- Emissions of the `ai_need_prediction` handler. -/
inductive PredictionOut where
  | errorEvent (msg : String)
  | alertToRoom (room : String)
deriving Repr, DecidableEq

/-- The `ai_need_prediction` handler (notificationHandler.js lines
354-386): only an admin may emit; an accepted prediction goes to the
location room when a location with coordinates is present, and always to
the resource-category room. -/
def aiNeedPredictionHandler (u : User) (p : PredictionPayload) :
    List PredictionOut :=
  if u.role ≠ "admin" then
    [.errorEvent "Not authorized"]
  else
    let locEmits : List PredictionOut :=
      match p.location with
      | some loc =>
        match loc.coordinates with
        | some cs => [.alertToRoom (locationRoom cs)]
        | none => []
      | none => []
    locEmits ++ [.alertToRoom ("resource_alerts:" ++ p.predictionCategory)]

/-- Read-receipt insertion for one message inside `markAsRead`
(Chat.js lines 267-285): push a receipt only when the reader has none
on the message yet. -/
def markReceipt (m : Message) (userId : String) (now : Nat) : Message :=
  if (m.readBy.find? fun r => r.user == userId).isSome then m
  else { m with readBy := m.readBy ++ [{ user := userId, readAt := now }] }

/-- The `chatSchema.methods.markAsRead` method (Chat.js lines 265-297):
with a message id, mark only the subdocument with that id (a missing id
marks nothing); without one, mark every message; then zero the first
unread-count entry of the reader and `save()`. -/
def Chat.markAsRead (c : Chat) (userId : String) (messageId : Option String)
    (now : Nat) : Chat :=
  let messages :=
    match messageId with
    | some mid =>
      updateFirst (fun m => m.id == mid) (fun m => markReceipt m userId now)
        c.messages
    | none => c.messages.map fun m => markReceipt m userId now
  let counts :=
    updateFirst (fun uc => uc.user == userId) (fun uc => { uc with count := 0 })
      c.unreadCounts
  { c with messages := messages, unreadCounts := counts }

/-- The `chatSchema.methods.getUnreadCount` method (Chat.js lines 300-305). -/
def Chat.getUnreadCount (c : Chat) (userId : String) : Nat :=
  match c.unreadCounts.find? (fun uc => uc.user == userId) with
  | some uc => uc.count
  | none => 0

/-- Emissions of the `mark_as_read` handler; the read receipt goes to the
chat room excluding the reader's own socket (`socket.to(...)`). -/
inductive MarkReadOut where
  | errorEvent (msg : String)
  | messageReadToOthers (chatId : String) (messageId : Option String)
      (readBy : String)
deriving Repr, DecidableEq

/-- The `mark_as_read` handler (chatHandler.js lines 161-183): fetch the
chat, run `markAsRead`, and broadcast the receipt — the payload message id
is forwarded verbatim, whether or not it names a message of the chat. -/
def markAsReadHandler (fetched : Option Chat) (u : User) (chatId : String)
    (messageId : Option String) (now : Nat) : Option Chat × List MarkReadOut :=
  match fetched with
  | none => (none, [.errorEvent "Chat not found"])
  | some chat =>
    (some (chat.markAsRead u.id messageId now),
      [.messageReadToOthers chatId messageId u.id])

/-- Reaction identity test used by `add_reaction`
(`r.user.toString() === ... && r.emoji === emoji`). -/
def reactionMatches (userId emoji : String) (r : Reaction) : Bool :=
  r.user == userId && r.emoji == emoji

/-- Toggle logic of the `add_reaction` handler (chatHandler.js lines
202-216): pull the found reaction, or push a fresh one. -/
def toggleReaction (m : Message) (userId emoji : String) (now : Nat) : Message :=
  match m.reactions.find? (reactionMatches userId emoji) with
  | some _ =>
    { m with reactions := removeFirst (reactionMatches userId emoji) m.reactions }
  | none =>
    { m with reactions :=
        m.reactions ++ [{ user := userId, emoji := emoji, addedAt := now }] }

/-- Number of reactions a given identity holds with a given emoji on a
message. -/
def reactionCount (m : Message) (userId emoji : String) : Nat :=
  (m.reactions.filter (reactionMatches userId emoji)).length

/-- Emissions of the `add_reaction` handler. -/
inductive ReactionOut where
  | errorEvent (msg : String)
  | reactionUpdated (chatId : String) (messageId : String)
deriving Repr, DecidableEq

/-- The `add_reaction` handler (chatHandler.js lines 186-230). -/
def addReactionHandler (fetched : Option Chat) (u : User)
    (chatId messageId emoji : String) (now : Nat) :
    Option Chat × List ReactionOut :=
  match fetched with
  | none => (none, [.errorEvent "Chat not found"])
  | some chat =>
    match chat.messages.find? (fun m => m.id == messageId) with
    | none => (some chat, [.errorEvent "Message not found"])
    | some _ =>
      (some { chat with
          messages := updateFirst (fun m => m.id == messageId)
            (fun m => toggleReaction m u.id emoji now) chat.messages },
        [.reactionUpdated chatId messageId])

/-- Iterate the `add_reaction` handler over a list of clock values,
threading the persisted chat state through. -/
def iterateReact (u : User) (chatId messageId emoji : String) :
    Option Chat → List Nat → Option Chat
  | fc, [] => fc
  | fc, t :: ts =>
    iterateReact u chatId messageId emoji
      (addReactionHandler fc u chatId messageId emoji t).1 ts

/-- Emissions of the `edit_message` handler. -/
inductive EditOut where
  | errorEvent (msg : String)
  | messageEdited (chatId : String) (messageId : String) (newContent : String)
      (editedAt : Nat)
deriving Repr, DecidableEq

/-- In-place mutation performed by `edit_message` on the found message
(chatHandler.js lines 275-279): `originalContent` receives the current
content on every edit, then the content, edited flag and timestamp are
overwritten. -/
def applyEdit (newContent : String) (now : Nat) (m : Message) : Message :=
  { m with
    originalContent := m.content
    content := some newContent
    isEdited := true
    editedAt := some now }

/-- The `edit_message` handler (chatHandler.js lines 254-294). -/
def editMessageHandler (fetched : Option Chat) (u : User)
    (chatId messageId newContent : String) (now : Nat) :
    Option Chat × List EditOut :=
  match fetched with
  | none => (none, [.errorEvent "Chat not found"])
  | some chat =>
    match chat.messages.find? (fun m => m.id == messageId) with
    | none => (some chat, [.errorEvent "Message not found"])
    | some msg =>
      if msg.sender ≠ u.id then
        (some chat, [.errorEvent "Not authorized to edit this message"])
      else
        (some { chat with
            messages := updateFirst (fun m => m.id == messageId)
              (applyEdit newContent now) chat.messages },
          [.messageEdited chatId messageId newContent now])

/-- Emissions of the `delete_message` handler. -/
inductive DeleteOut where
  | errorEvent (msg : String)
  | messageDeleted (chatId : String) (messageId : String)
deriving Repr, DecidableEq

/-- The `delete_message` handler (chatHandler.js lines 297-332): the
sender or an admin may delete; `messages.pull(messageId)` drops the
subdocuments with that id and nothing else on the chat is written — in
particular `lastMessage` is not recomputed. -/
def deleteMessageHandler (fetched : Option Chat) (u : User)
    (chatId messageId : String) : Option Chat × List DeleteOut :=
  match fetched with
  | none => (none, [.errorEvent "Chat not found"])
  | some chat =>
    match chat.messages.find? (fun m => m.id == messageId) with
    | none => (some chat, [.errorEvent "Message not found"])
    | some msg =>
      if msg.sender ≠ u.id ∧ u.role ≠ "admin" then
        (some chat, [.errorEvent "Not authorized to delete this message"])
      else
        (some { chat with
            messages := chat.messages.filter fun m => !(m.id == messageId) },
          [.messageDeleted chatId messageId])

/-- Demo user directory entry: identity u1, an ordinary unverified
member. -/
def presenceDemoUser : User :=
  { id := "u1", username := "amina", role := "receiver", isVerified := false
    isOnline := false, lastActive := 0, preferredLanguage := "en"
    pushEnabled := true }

/-- Demo second identity, a plain member of the demo chat. -/
def demoUserTwo : User :=
  { id := "u2", username := "ben", role := "receiver", isVerified := false
    isOnline := true, lastActive := 0, preferredLanguage := "en"
    pushEnabled := true }

/-- Demo message "m1" sent by u1 with text content "a". -/
def demoMessage : Message :=
  { id := "m1", sender := "u1", content := some "a", messageType := "text"
    voiceNote := none, image := none, location := none, sharedResource := none
    readBy := [], reactions := [], replyTo := none, isEdited := false
    editedAt := none, originalContent := none }

/-- Demo direct chat between u1 and u2 holding the single message "m1",
whose last-message summary describes that message. -/
def demoChat : Chat :=
  { chatType := "direct"
    participants :=
      [{ user := "u1", role := "member", joinedAt := 0, lastSeen := 0 },
       { user := "u2", role := "member", joinedAt := 0, lastSeen := 0 }]
    messages := [demoMessage]
    lastMessage := some
      { content := "a", sender := "u1", sentAt := 1, messageType := "text" }
    unreadCounts := [{ user := "u1", count := 0 }, { user := "u2", count := 3 }] }

/-- Persisted chat after u1 edits message m1 to "b" at time 10. -/
def demoChatEditedOnce : Option Chat :=
  (editMessageHandler (some demoChat) presenceDemoUser "chat1" "m1" "b" 10).1

/-- Persisted chat after u1 then edits message m1 again, to "c" at
time 11. -/
def demoChatEditedTwice : Option Chat :=
  (editMessageHandler demoChatEditedOnce presenceDemoUser "chat1" "m1" "c" 11).1

/-- Demo presence world: one known identity, no open connections. -/
def presenceDemoState : PresenceState :=
  { users := [presenceDemoUser], live := [] }

/-- Demo trace: the identity opens two connections, then closes the first
while the second stays open. -/
def presenceDemoTrace : List PresenceEvent :=
  [.connect "c1" "u1" 1, .connect "c2" "u1" 2, .disconnect "c1" "u1" 3]

theorem find?_updateFirst {α : Type} (p : α → Bool) (f : α → α) (l : List α)
    (hf : ∀ a, p a = true → p (f a) = true) :
    (updateFirst p f l).find? p = (l.find? p).map f := by
  induction l with
  | nil => simp [updateFirst]
  | cons a l ih =>
    by_cases hp : p a = true
    · rw [updateFirst, if_pos hp, List.find?_cons_of_pos _ (hf a hp),
        List.find?_cons_of_pos _ hp, Option.map_some']
    · have hp' : p a = false := by simpa using hp
      rw [updateFirst, if_neg (by simp [hp']), List.find?_cons_of_neg _ (by simp [hp']),
        List.find?_cons_of_neg _ (by simp [hp']), ih]

theorem updateFirst_eq_self {α : Type} (p : α → Bool) (f : α → α) (l : List α)
    (hf : ∀ a, l.find? p = some a → f a = a) :
    updateFirst p f l = l := by
  induction l with
  | nil => rfl
  | cons a l ih =>
    by_cases hp : p a = true
    · have ha : f a = a := hf a (List.find?_cons_of_pos _ hp)
      rw [updateFirst, if_pos hp, ha]
    · have hp' : p a = false := by simpa using hp
      rw [updateFirst, if_neg (by simp [hp'])]
      have : updateFirst p f l = l := by
        refine ih fun b hb => hf b ?_
        rw [List.find?_cons_of_neg _ (by simp [hp'])]
        exact hb
      rw [this]

theorem filter_removeFirst {α : Type} (q : α → Bool) (l : List α) :
    (removeFirst q l).filter q = (l.filter q).tail := by
  induction l with
  | nil => rfl
  | cons a l ih =>
    by_cases h : q a = true
    · rw [removeFirst, if_pos h, List.filter_cons_of_pos h, List.tail_cons]
    · have h' : q a = false := by simpa using h
      rw [removeFirst, if_neg (by simp [h']), List.filter_cons_of_neg (by simp [h']),
        List.filter_cons_of_neg (by simp [h']), ih]

theorem addMessage_ok_messages {c c2 : Chat} {md : MessageData} {newId : String}
    {now : Nat} (h : c.addMessage md newId now = Except.ok c2) :
    c2.messages = c.messages ++ [mkMessage newId md] := by
  unfold Chat.addMessage at h
  by_cases hv : validMessageData md = true
  · simp [hv] at h
    subst h
    rfl
  · simp [hv] at h

theorem addMessage_ok_length {c c2 : Chat} {md : MessageData} {newId : String}
    {now : Nat} (h : c.addMessage md newId now = Except.ok c2) :
    c2.messages.length = c.messages.length + 1 := by
  rw [addMessage_ok_messages h]
  simp

theorem runSendsPos_eq_range (c : Chat) (reqs : List AppendReq) :
    (runSendsPos c reqs).2 =
      List.range' c.messages.length (runSendsPos c reqs).2.length := by
  induction reqs generalizing c with
  | nil => simp [runSendsPos]
  | cons r rest ih =>
    unfold runSendsPos
    cases h : c.addMessage r.data r.newId r.now with
    | ok c2 =>
      have hl := addMessage_ok_length h
      have hrest := ih c2
      rw [hl] at hrest
      simp only [List.length_cons, List.range'_succ]
      exact congrArg (c.messages.length :: ·) hrest
    | error e => exact ih c

/-- C1: positions handed out by a run of `send_message` appends against a
chat form the gapless, strictly increasing block of indices starting at
the pre-existing ledger length, listed in store commit order: no position
is duplicated and none is skipped. -/
theorem send_message_positions_gapless (c : Chat) (reqs : List AppendReq) :
    (runSendsPos c reqs).2 =
        List.range' c.messages.length (runSendsPos c reqs).2.length ∧
      List.Pairwise (· < ·) (runSendsPos c reqs).2 ∧
      ∀ i : Nat, ∀ h : i < (runSendsPos c reqs).2.length,
        (runSendsPos c reqs).2[i] = c.messages.length + i := by
  refine ⟨runSendsPos_eq_range c reqs, ?_, ?_⟩
  · rw [runSendsPos_eq_range c reqs]
    exact List.pairwise_lt_range' _ _
  · intro i h
    have h2 : i < (List.range' c.messages.length
        (runSendsPos c reqs).2.length).length := by
      simpa using (runSendsPos_eq_range c reqs ▸ h)
    calc (runSendsPos c reqs).2[i]
        = (List.range' c.messages.length (runSendsPos c reqs).2.length)[i] := by
          congr 1
          exact runSendsPos_eq_range c reqs
      _ = c.messages.length + i := by
          rw [List.getElem_range']
          ring

/-- C2 counterexample: identity u1 opens connections c1 and c2, then closes
only c1.  One connection (c2) is still registered for u1, yet the persisted
presence flag is offline, because the disconnect handler unconditionally
writes `isOnline = false` without counting remaining connections.  This
refutes the claim that an identity stays online while at least one
connection is registered for it. -/
theorem presence_multi_device_counterexample :
    (runPresence presenceDemoState presenceDemoTrace).liveConnCount "u1" = 1 ∧
      (runPresence presenceDemoState presenceDemoTrace).isOnlineOf "u1" =
        some false := by
  constructor <;> rfl

/-- C2 amended: connecting marks the identity online; any single disconnect
marks the identity offline and stamps `lastActive` with the disconnect
time, regardless of how many other live connections that identity still
holds (there is no per-identity connection counting). -/
theorem presence_disconnect_always_offline (s : PresenceState)
    (cid uid : String) (t : Nat) (u : User)
    (hu : s.users.find? (fun v => v.id == uid) = some u) :
    (stepPresence s (.disconnect cid uid t)).1.isOnlineOf uid = some false ∧
      (stepPresence s (.disconnect cid uid t)).1.lastActiveOf uid = some t ∧
      (stepPresence s (.connect cid uid t)).1.isOnlineOf uid = some true := by
  have hpres : ∀ v : User,
      (fun v : User => v.id == uid) v = true →
      (fun v : User => v.id == uid)
        ({ v with isOnline := false, lastActive := t } : User) = true := by
    intro v hv
    simpa using hv
  have hpres2 : ∀ v : User,
      (fun v : User => v.id == uid) v = true →
      (fun v : User => v.id == uid) ({ v with isOnline := true } : User) = true := by
    intro v hv
    simpa using hv
  refine ⟨?_, ?_, ?_⟩
  · unfold PresenceState.isOnlineOf stepPresence
    rw [find?_updateFirst _ _ _ hpres, hu]
    rfl
  · unfold PresenceState.lastActiveOf stepPresence
    rw [find?_updateFirst _ _ _ hpres, hu]
    rfl
  · unfold PresenceState.isOnlineOf stepPresence
    rw [find?_updateFirst _ _ _ hpres2, hu]
    rfl

/-- C3: an identity that is neither admin nor verified gets an error event
from both the emergency-alert and the ai-prediction handler, and neither
handler publishes to any topic (the error back to the caller is the only
emission). -/
theorem alert_auth_gate (u : User) (p : EmergencyPayload)
    (q : PredictionPayload) (hrole : u.role ≠ "admin")
    (hver : u.isVerified = false) :
    sendEmergencyAlertHandler u p =
        [.errorEvent "Not authorized to send emergency alerts"] ∧
      aiNeedPredictionHandler u q = [.errorEvent "Not authorized"] := by
  constructor
  · unfold sendEmergencyAlertHandler
    rw [if_pos ⟨hrole, hver⟩]
  · unfold aiNeedPredictionHandler
    rw [if_pos hrole]

/-- Witness for the C3 theorem: a concrete unverified member is rejected by
both handlers. -/
theorem alert_auth_gate_witness :
    sendEmergencyAlertHandler presenceDemoUser
        { title := "flood", message := "evacuate", location := none
          urgency := some "critical", category := some "medical" } =
        [.errorEvent "Not authorized to send emergency alerts"] ∧
      aiNeedPredictionHandler presenceDemoUser
        { predictionCategory := "food", location := none } =
        [.errorEvent "Not authorized"] :=
  alert_auth_gate presenceDemoUser
    { title := "flood", message := "evacuate", location := none
      urgency := some "critical", category := some "medical" }
    { predictionCategory := "food", location := none }
    (by decide) rfl

/-- C10: an authorized emergency alert whose payload has no location, no
category, and an effective urgency other than critical is accepted without
any error event, yet is published to zero topics: the handler emits
nothing at all. -/
theorem emergency_alert_silent_drop (u : User) (p : EmergencyPayload)
    (hauth : u.role = "admin" ∨ u.isVerified = true)
    (hloc : p.location = none) (hcat : p.category = none)
    (hurg : p.urgency.getD "high" ≠ "critical") :
    sendEmergencyAlertHandler u p = [] := by
  unfold sendEmergencyAlertHandler
  rw [if_neg (by
    rintro ⟨h1, h2⟩
    rcases hauth with h | h
    · exact h1 h
    · rw [h] at h2
      exact Bool.noConfusion h2)]
  rw [hloc, hcat]
  simp [strTruthy, hurg]

/-- Witness for the C10 theorem: a concrete admin alert with default
urgency, no location and no category reaches nobody. -/
theorem emergency_alert_silent_drop_witness :
    sendEmergencyAlertHandler
        { id := "a1", username := "root", role := "admin", isVerified := true
          isOnline := true, lastActive := 0, preferredLanguage := "en"
          pushEnabled := true }
        { title := "note", message := "low stock", location := none
          urgency := none, category := none } = [] :=
  emergency_alert_silent_drop
    { id := "a1", username := "root", role := "admin", isVerified := true
      isOnline := true, lastActive := 0, preferredLanguage := "en"
      pushEnabled := true }
    { title := "note", message := "low stock", location := none
      urgency := none, category := none }
    (Or.inl rfl) rfl rfl (by decide)

/-- C5 counterexample: deleting the only message of the demo chat — the
very message its last-message summary describes — leaves the ledger empty
while the summary is neither recomputed nor cleared: it still describes
the deleted message. -/
theorem delete_last_message_counterexample :
    ((deleteMessageHandler (some demoChat) presenceDemoUser "chat1" "m1").1.map
        Chat.messages) = some [] ∧
      ((deleteMessageHandler (some demoChat) presenceDemoUser "chat1" "m1").1.map
        Chat.lastMessage) = some (some
          { content := "a", sender := "u1", sentAt := 1, messageType := "text" }) ∧
      ((deleteMessageHandler (some demoChat) presenceDemoUser "chat1" "m1").1.map
        Chat.lastMessage) ≠ some none := by
  refine ⟨rfl, rfl, by decide⟩

/-- C5 amended: an authorized delete removes every copy of the message
from the ledger without renumbering the surviving messages, but the
last-message summary is left untouched — it is never recomputed from the
new tail nor cleared, even when the deleted message was the last one. -/
theorem delete_message_keeps_summary (chat : Chat) (u : User)
    (cid mid : String) (msg : Message)
    (hfind : chat.messages.find? (fun m => m.id == mid) = some msg)
    (hauth : msg.sender = u.id ∨ u.role = "admin") :
    ∃ c2, deleteMessageHandler (some chat) u cid mid =
        (some c2, [.messageDeleted cid mid]) ∧
      c2.lastMessage = chat.lastMessage ∧
      c2.messages = chat.messages.filter fun m => !(m.id == mid) := by
  have hne : ¬(msg.sender ≠ u.id ∧ u.role ≠ "admin") := by
    rintro ⟨h1, h2⟩
    rcases hauth with h | h
    exacts [h1 h, h2 h]
  have hres : deleteMessageHandler (some chat) u cid mid =
      (some { chat with messages := chat.messages.filter fun m => !(m.id == mid) },
        [.messageDeleted cid mid]) := by
    unfold deleteMessageHandler
    simp [hfind, hne]
  exact ⟨_, hres, rfl, rfl⟩

/-- Witness for the amended C5 theorem: deleting the single demo message
leaves the stale summary in place. -/
theorem delete_message_keeps_summary_witness :
    ((deleteMessageHandler (some demoChat) presenceDemoUser "chat1" "m1").1.map
        Chat.lastMessage) = some demoChat.lastMessage := by
  obtain ⟨c2, h1, h2, h3⟩ :=
    delete_message_keeps_summary demoChat presenceDemoUser "chat1" "m1"
      demoMessage rfl (Or.inl rfl)
  rw [h1]
  simp [h2]

/-- C6 counterexample: message m1 originally has content "a"; after u1
edits it to "b" and then again to "c", `originalContent` holds "b" — the
first edited text — not the never-edited original "a".  The second edit
does change `originalContent`, refuting the first-edit-only preservation
claim. -/
theorem edit_original_content_counterexample :
    demoMessage.content = some "a" ∧
      (demoChatEditedTwice.map fun c =>
        (c.messages.find? fun m => m.id == "m1").map Message.originalContent) =
        some (some (some "b")) ∧
      (some "b" : Option String) ≠ some "a" := by
  refine ⟨rfl, rfl, by decide⟩

/-- C6 amended: edit is rejected with an error event (Forbidden) unless
the editing identity is the original sender, and every successful edit
overwrites `originalContent` with the content the message had immediately
before that edit — so after a second edit `originalContent` holds the
first edited text, not the original one. -/
theorem edit_message_overwrites_original (chat : Chat) (u : User)
    (cid mid nc : String) (now : Nat) (msg : Message)
    (hfind : chat.messages.find? (fun m => m.id == mid) = some msg) :
    (msg.sender ≠ u.id →
      editMessageHandler (some chat) u cid mid nc now =
        (some chat, [.errorEvent "Not authorized to edit this message"])) ∧
    (msg.sender = u.id →
      ∃ c2, editMessageHandler (some chat) u cid mid nc now =
          (some c2, [.messageEdited cid mid nc now]) ∧
        c2.messages.find? (fun m => m.id == mid) = some (applyEdit nc now msg) ∧
        (applyEdit nc now msg).originalContent = msg.content ∧
        (applyEdit nc now msg).content = some nc ∧
        (applyEdit nc now msg).isEdited = true) := by
  constructor
  · intro hne
    unfold editMessageHandler
    simp [hfind, hne]
  · intro heq
    have hres : editMessageHandler (some chat) u cid mid nc now =
        (some { chat with messages := updateFirst (fun m => m.id == mid) (applyEdit nc now) chat.messages },
          [.messageEdited cid mid nc now]) := by
      unfold editMessageHandler
      simp [hfind, heq]
    refine ⟨_, hres, ?_, rfl, rfl, rfl⟩
    show (updateFirst (fun m => m.id == mid) (applyEdit nc now)
        chat.messages).find? (fun m => m.id == mid) = some (applyEdit nc now msg)
    rw [find?_updateFirst _ _ _ (fun a ha => by simpa [applyEdit] using ha),
      hfind, Option.map_some']

/-- Witness for the amended C6 theorem: the non-sender u2 is refused the
edit of the demo message. -/
theorem edit_message_overwrites_original_witness :
    editMessageHandler (some demoChat) demoUserTwo "chat1" "m1" "zzz" 7 =
      (some demoChat, [.errorEvent "Not authorized to edit this message"]) :=
  (edit_message_overwrites_original demoChat demoUserTwo "chat1" "m1" "zzz" 7
      demoMessage rfl).1 (by decide)

theorem toggleReaction_id (m : Message) (u e : String) (t : Nat) :
    (toggleReaction m u e t).id = m.id := by
  unfold toggleReaction
  cases m.reactions.find? (reactionMatches u e) <;> rfl

theorem reactionCount_toggle (m : Message) (u e : String) (t : Nat) :
    reactionCount (toggleReaction m u e t) u e =
      if reactionCount m u e = 0 then 1 else reactionCount m u e - 1 := by
  unfold toggleReaction reactionCount
  cases hf : m.reactions.find? (reactionMatches u e) with
  | none =>
    have hnil : m.reactions.filter (reactionMatches u e) = [] := by
      rw [List.filter_eq_nil_iff]
      intro a ha
      exact List.find?_eq_none.mp hf a ha
    simp [hnil, List.filter_append, reactionMatches]
  | some ex =>
    have hmem : ex ∈ m.reactions := List.mem_of_find?_eq_some hf
    have hq : reactionMatches u e ex = true := List.find?_some hf
    have hlen : (m.reactions.filter (reactionMatches u e)).length ≠ 0 := by
      intro h0
      exact (List.filter_eq_nil_iff.mp (List.length_eq_zero.mp h0)) ex hmem hq
    simp only [filter_removeFirst, List.length_tail]
    rw [if_neg hlen]

theorem addReaction_step (chat : Chat) (u : User) (cid mid e : String)
    (t : Nat) (msg : Message)
    (hfind : chat.messages.find? (fun m => m.id == mid) = some msg) :
    (addReactionHandler (some chat) u cid mid e t).1 =
        some { chat with messages := updateFirst (fun m => m.id == mid) (fun m => toggleReaction m u.id e t) chat.messages } ∧
      ({ chat with messages := updateFirst (fun m => m.id == mid) (fun m => toggleReaction m u.id e t) chat.messages } : Chat).messages.find?
          (fun m => m.id == mid) = some (toggleReaction msg u.id e t) := by
  constructor
  · unfold addReactionHandler
    simp [hfind]
  · show (updateFirst (fun m => m.id == mid) (fun m => toggleReaction m u.id e t)
        chat.messages).find? (fun m => m.id == mid) = some (toggleReaction msg u.id e t)
    rw [find?_updateFirst _ _ _ (fun a ha => by
        simpa [toggleReaction_id] using ha), hfind, Option.map_some']

theorem react_toggle_parity_aux (u : User) (cid mid e : String) :
    ∀ (ts : List Nat) (chat : Chat) (msg : Message),
      chat.messages.find? (fun m => m.id == mid) = some msg →
      reactionCount msg u.id e ≤ 1 →
      ∃ c2 m2, iterateReact u cid mid e (some chat) ts = some c2 ∧
        c2.messages.find? (fun m => m.id == mid) = some m2 ∧
        reactionCount m2 u.id e = (reactionCount msg u.id e + ts.length) % 2 := by
  intro ts
  induction ts with
  | nil =>
    intro chat msg hfind hle
    refine ⟨chat, msg, rfl, hfind, ?_⟩
    simp only [List.length_nil, Nat.add_zero]
    omega
  | cons t ts ih =>
    intro chat msg hfind hle
    obtain ⟨hc2, hf2⟩ := addReaction_step chat u cid mid e t msg hfind
    have hcount := reactionCount_toggle msg u.id e t
    have hle2 : reactionCount (toggleReaction msg u.id e t) u.id e ≤ 1 := by
      rw [hcount]
      split <;> omega
    obtain ⟨c3, m3, hit, hf3, hcnt⟩ := ih _ (toggleReaction msg u.id e t) hf2 hle2
    refine ⟨c3, m3, ?_, hf3, ?_⟩
    · show iterateReact u cid mid e
        (addReactionHandler (some chat) u cid mid e t).1 ts = some c3
      rw [hc2]
      exact hit
    · rw [hcnt, hcount]
      by_cases h0 : reactionCount msg u.id e = 0
      · rw [if_pos h0, h0]
        simp only [List.length_cons]
        omega
      · rw [if_neg h0]
        have h1 : reactionCount msg u.id e = 1 := by omega
        rw [h1]
        simp only [List.length_cons]
        omega

/-- C7: starting from a message carrying no reaction by the given identity
with the given emoji, iterating the `add_reaction` handler with identical
(chat, identity, messageId, emoji) arguments leaves that identity with
exactly `n % 2` such reactions on the message: zero after any even number
of calls (in particular two consecutive calls), exactly one after any odd
number. -/
theorem react_toggle_parity (chat : Chat) (u : User) (cid mid e : String)
    (ts : List Nat) (msg : Message)
    (hfind : chat.messages.find? (fun m => m.id == mid) = some msg)
    (hzero : reactionCount msg u.id e = 0) :
    ∃ c2 m2, iterateReact u cid mid e (some chat) ts = some c2 ∧
      c2.messages.find? (fun m => m.id == mid) = some m2 ∧
      reactionCount m2 u.id e = ts.length % 2 := by
  obtain ⟨c2, m2, h1, h2, h3⟩ :=
    react_toggle_parity_aux u cid mid e ts chat msg hfind (by omega)
  refine ⟨c2, m2, h1, h2, ?_⟩
  rw [h3, hzero, Nat.zero_add]

/-- Witness for the C7 theorem: three identical toggles by u2 on the demo
message leave exactly one reaction. -/
theorem react_toggle_parity_witness :
    ((iterateReact demoUserTwo "chat1" "m1" "like" (some demoChat) [4, 5, 6]).map
      fun c => (c.messages.find? fun m => m.id == "m1").map
        fun m => reactionCount m "u2" "like") = some (some 1) := by
  obtain ⟨c2, m2, h1, h2, h3⟩ :=
    react_toggle_parity demoChat demoUserTwo "chat1" "m1" "like" [4, 5, 6]
      demoMessage rfl rfl
  rw [h1]
  simp only [Option.map_some', h2]
  simpa [demoUserTwo] using h3

theorem markReceipt_id (m : Message) (u : String) (t : Nat) :
    (markReceipt m u t).id = m.id := by
  unfold markReceipt
  split <;> rfl

theorem markReceipt_noop (m : Message) (u : String) (t : Nat)
    (h : (m.readBy.find? fun r => r.user == u).isSome = true) :
    markReceipt m u t = m := by
  unfold markReceipt
  rw [if_pos h]

theorem markAsRead_messages (c : Chat) (u mid : String) (t : Nat) :
    (c.markAsRead u (some mid) t).messages =
      updateFirst (fun m => m.id == mid) (fun m => markReceipt m u t)
        c.messages := rfl

theorem markAsRead_unreadCounts (c : Chat) (u : String)
    (messageId : Option String) (t : Nat) :
    (c.markAsRead u messageId t).unreadCounts =
      updateFirst (fun uc => uc.user == u) (fun uc => { uc with count := 0 })
        c.unreadCounts := by
  unfold Chat.markAsRead
  cases messageId <;> rfl

/-- C8: when the reader has no read marker yet on an existing message,
marking it read twice is the same persisted state as marking it read once,
and that state carries exactly one read marker for the reader on the
message. -/
theorem markRead_idempotent (chat : Chat) (u : User) (mid : String)
    (t1 t2 : Nat) (msg : Message)
    (hfind : chat.messages.find? (fun m => m.id == mid) = some msg)
    (hnone : msg.readBy.filter (fun r => r.user == u.id) = []) :
    (chat.markAsRead u.id (some mid) t1).markAsRead u.id (some mid) t2 =
        chat.markAsRead u.id (some mid) t1 ∧
      ∃ m2, (chat.markAsRead u.id (some mid) t1).messages.find?
          (fun m => m.id == mid) = some m2 ∧
        (m2.readBy.filter fun r => r.user == u.id).length = 1 := by
  have hrecnone : msg.readBy.find? (fun r => r.user == u.id) = none :=
    List.find?_eq_none.mpr (List.filter_eq_nil_iff.mp hnone)
  have hm1 : markReceipt msg u.id t1 =
      { msg with readBy := msg.readBy ++ [{ user := u.id, readAt := t1 }] } := by
    unfold markReceipt
    rw [hrecnone]
    rfl
  have hfind1 : (chat.markAsRead u.id (some mid) t1).messages.find?
      (fun m => m.id == mid) = some (markReceipt msg u.id t1) := by
    rw [markAsRead_messages,
      find?_updateFirst _ _ _ (fun a ha => by simpa [markReceipt_id] using ha),
      hfind, Option.map_some']
  have hsome : ((markReceipt msg u.id t1).readBy.find?
      (fun r => r.user == u.id)).isSome = true := by
    rw [hm1]
    apply List.find?_isSome.mpr
    exact ⟨{ user := u.id, readAt := t1 }, by simp, by simp⟩
  have hfix : markReceipt (markReceipt msg u.id t1) u.id t2 =
      markReceipt msg u.id t1 := markReceipt_noop _ _ _ hsome
  have hmsgs : updateFirst (fun m => m.id == mid) (fun m => markReceipt m u.id t2)
      (chat.markAsRead u.id (some mid) t1).messages =
      (chat.markAsRead u.id (some mid) t1).messages := by
    refine updateFirst_eq_self _ _ _ fun a ha => ?_
    rw [hfind1] at ha
    cases ha
    exact hfix
  have hcounts : updateFirst (fun uc => uc.user == u.id)
      (fun uc => { uc with count := 0 })
      (chat.markAsRead u.id (some mid) t1).unreadCounts =
      (chat.markAsRead u.id (some mid) t1).unreadCounts := by
    refine updateFirst_eq_self _ _ _ fun a ha => ?_
    rw [markAsRead_unreadCounts,
      find?_updateFirst _ _ _ (fun b hb => by simpa using hb)] at ha
    cases hb : chat.unreadCounts.find? (fun uc => uc.user == u.id) with
    | none => rw [hb] at ha; exact Option.noConfusion ha
    | some uc =>
      rw [hb, Option.map_some'] at ha
      cases ha
      rfl
  constructor
  · show ({ chat.markAsRead u.id (some mid) t1 with
        messages := updateFirst (fun m => m.id == mid) (fun m => markReceipt m u.id t2) (chat.markAsRead u.id (some mid) t1).messages
        unreadCounts := updateFirst (fun uc => uc.user == u.id) (fun uc => { uc with count := 0 }) (chat.markAsRead u.id (some mid) t1).unreadCounts } : Chat) =
      chat.markAsRead u.id (some mid) t1
    rw [hmsgs, hcounts]
  · refine ⟨markReceipt msg u.id t1, hfind1, ?_⟩
    rw [hm1]
    simp [List.filter_append, hnone]

/-- Witness for the C8 theorem: u2 marks the demo message read twice and
the persisted chat is the same as after the first call. -/
theorem markRead_idempotent_witness :
    (demoChat.markAsRead "u2" (some "m1") 4).markAsRead "u2" (some "m1") 6 =
      demoChat.markAsRead "u2" (some "m1") 4 :=
  (markRead_idempotent demoChat demoUserTwo "m1" 4 6 demoMessage rfl rfl).1

/-- C9: calling `mark_as_read` on an existing chat with a message id that
matches no message of the chat does not fail: no error event is emitted,
the ledger is unchanged, the reader's unread counter is reset to zero, and
a `message_read` event carrying that very message id is still broadcast to
the other subscribers of the chat room. -/
theorem mark_read_unknown_message (chat : Chat) (u : User) (cid mid : String)
    (now : Nat)
    (hfind : chat.messages.find? (fun m => m.id == mid) = none) :
    ∃ c2, markAsReadHandler (some chat) u cid (some mid) now =
        (some c2, [.messageReadToOthers cid (some mid) u.id]) ∧
      c2.messages = chat.messages ∧
      c2.getUnreadCount u.id = 0 := by
  refine ⟨chat.markAsRead u.id (some mid) now, rfl, ?_, ?_⟩
  · rw [markAsRead_messages]
    refine updateFirst_eq_self _ _ _ fun a ha => ?_
    rw [hfind] at ha
    exact Option.noConfusion ha
  · unfold Chat.getUnreadCount
    rw [markAsRead_unreadCounts,
      find?_updateFirst _ _ _ (fun b hb => by simpa using hb)]
    cases hb : chat.unreadCounts.find? (fun uc => uc.user == u.id) <;> rfl

/-- Witness for the C9 theorem: marking the nonexistent message "ghost"
read on the demo chat resets the unread counter of u2 and broadcasts the
receipt with that id. -/
theorem mark_read_unknown_message_witness :
    ((markAsReadHandler (some demoChat) demoUserTwo "chat1" (some "ghost") 9).1.map
        fun c => c.getUnreadCount "u2") = some 0 ∧
      (markAsReadHandler (some demoChat) demoUserTwo "chat1" (some "ghost") 9).2 =
        [.messageReadToOthers "chat1" (some "ghost") "u2"] := by
  obtain ⟨c2, h1, h2, h3⟩ :=
    mark_read_unknown_message demoChat demoUserTwo "chat1" "ghost" 9 rfl
  constructor
  · rw [h1]
    simpa using h3
  · rw [h1]
    rfl

/-- Witness for the amended C2 theorem at a concrete state. -/
theorem presence_disconnect_always_offline_witness :
    (stepPresence presenceDemoState (.disconnect "c1" "u1" 3)).1.isOnlineOf "u1" =
        some false ∧
      (stepPresence presenceDemoState (.disconnect "c1" "u1" 3)).1.lastActiveOf "u1" =
        some 3 ∧
      (stepPresence presenceDemoState (.connect "c1" "u1" 3)).1.isOnlineOf "u1" =
        some true :=
  presence_disconnect_always_offline presenceDemoState "c1" "u1" 3
    presenceDemoUser rfl

end Wema
